import Mathlib

/-!
Shallow embedding of `src/script.js`: a small browser demo consisting of
pure helpers (`add`, `greet`, `incrementLocal`, `incrementGlobal`), DOM
class/attribute helpers (`toggleClass`, `animateOnce`, `openModal`,
`closeModal`) and the event wiring installed on page load.

The DOM is modelled as a map from selector strings to elements; an element
carries its class list (an ordered set of strings, mirroring DOMTokenList
semantics), its attribute list, its text content and an `offsetWidth`.
`setTimeout` is modelled as a queue of pending timers in the program state;
firing a timer runs its stored callback (removal of the animation class).
`getElementById x` is identified with `querySelector "#x"`, so wiring code
below always uses the `"#id"` selector form for element keys.
-/

namespace ScriptJs

/-! ### DOMTokenList semantics (classList) -/

/-- Membership test of `DOMTokenList.contains`. -/
def classListContains : List String → String → Bool
  | [], _ => false
  | x :: rest, c => if x = c then true else classListContains rest c

/-- `DOMTokenList.remove`: delete every occurrence of the token. -/
def classListRemove : List String → String → List String
  | [], _ => []
  | x :: rest, c =>
    if x = c then classListRemove rest c else x :: classListRemove rest c

/-- `DOMTokenList.add`: append the token unless already present. -/
def classListAdd (cs : List String) (c : String) : List String :=
  if classListContains cs c then cs else cs ++ [c]

/-- `DOMTokenList.toggle`: remove when present, add when absent. -/
def classListToggle (cs : List String) (c : String) : List String :=
  if classListContains cs c then classListRemove cs c else classListAdd cs c

/-! ### Attribute lists -/

/-- `Element.getAttribute` over an association list of attributes. -/
def getAttr : List (String × String) → String → Option String
  | [], _ => none
  | (k, w) :: rest, n => if k = n then some w else getAttr rest n

/-- `Element.setAttribute`: replace the first binding of the name, or append. -/
def attrSet : List (String × String) → String → String → List (String × String)
  | [], n, v => [(n, v)]
  | (k, w) :: rest, n, v =>
    if k = n then (n, v) :: rest else (k, w) :: attrSet rest n v

/-! ### Elements, documents, program state -/

/-- A DOM element: class list, attributes, text content, layout width. -/
structure Elem where
  classes : List String
  attrs : List (String × String)
  textContent : String
  offsetWidth : Nat
deriving DecidableEq

/-- `Element.setAttribute` on an element. -/
def setAttribute (e : Elem) (n v : String) : Elem :=
  { e with attrs := attrSet e.attrs n v }

/-- The document: a selector-indexed partial map of elements. -/
abbrev Dom := String → Option Elem

/-- `document.querySelector`. -/
def querySelector (d : Dom) (sel : String) : Option Elem := d sel

/-- Write back the element a selector resolves to (a DOM mutation seen
through that selector). -/
def domSet (d : Dom) (sel : String) (e : Elem) : Dom :=
  fun s => if s = sel then some e else d s

/-- A pending `setTimeout` whose callback removes `className` from the
element at `targetSel` after `delay` milliseconds. -/
structure Timer where
  id : Nat
  targetSel : String
  className : String
  delay : Nat
deriving DecidableEq

/-- Whole-program state: the document, the module-level `globalCounter`
(initialized to 0 at line 9 of `script.js`), and the pending timers. -/
structure State where
  dom : Dom
  globalCounter : Int
  timers : List Timer
  nextTimerId : Nat

/-- The state right after the script's top level runs on a page whose
document is `d`: `let globalCounter = 0`, no timers pending. -/
def initState (d : Dom) : State :=
  { dom := d, globalCounter := 0, timers := [], nextTimerId := 0 }

/-! ### JS numbers and values, for `add` -/

/-- A JS number for the purposes of `add`: either NaN or an exact value.
(Rounding of IEEE doubles is out of scope; the claims under study only
concern NaN propagation and the coercion contract.) -/
inductive JSNum where
  | nan : JSNum
  | num : ℚ → JSNum
deriving DecidableEq

/-- JS `+` on numbers: NaN is absorbing. -/
def jsAdd : JSNum → JSNum → JSNum
  | .num a, .num b => .num (a + b)
  | _, _ => .nan

/-- A JS value that can reach `add` (numbers, strings, booleans, null,
undefined). -/
inductive JSValue where
  | vnum : JSNum → JSValue
  | vstr : String → JSValue
  | vbool : Bool → JSValue
  | vnull : JSValue
  | vundefined : JSValue
deriving DecidableEq

def isWhitespaceChar (c : Char) : Bool :=
  c = ' ' || c = '\t' || c = '\n' || c = '\r'

def trimWs (cs : List Char) : List Char :=
  ((cs.dropWhile isWhitespaceChar).reverse.dropWhile isWhitespaceChar).reverse

/-- Split a leading run of decimal digits from a character list. -/
def takeDigits : List Char → List Char × List Char
  | [] => ([], [])
  | c :: rest =>
    if c.isDigit then
      let p := takeDigits rest
      (c :: p.1, p.2)
    else ([], c :: rest)

def digitsVal (ds : List Char) : Nat :=
  ds.foldl (fun acc c => acc * 10 + (c.toNat - 48)) 0

/-- Parse an unsigned decimal literal `digits`, `digits.digits`, `digits.`
or `.digits`; anything else is not numeric. -/
def parseUnsigned (cs : List Char) : Option ℚ :=
  let p := takeDigits cs
  match p.2 with
  | [] => if p.1.isEmpty then none else some (digitsVal p.1 : ℚ)
  | c :: rest2 =>
    if c = '.' then
      let q := takeDigits rest2
      if q.2.isEmpty && !(p.1.isEmpty && q.1.isEmpty) then
        some ((digitsVal p.1 : ℚ) + (digitsVal q.1 : ℚ) / ((10 : ℚ) ^ q.1.length))
      else none
    else none

/-- ECMAScript ToNumber on a string, restricted to optionally signed
decimal literals (hex/exponent/Infinity forms are not exercised by this
program): trimmed-empty is `0`, a decimal literal is its value, anything
else is NaN. -/
def strToNumber (s : String) : JSNum :=
  match trimWs s.toList with
  | [] => .num 0
  | c :: rest =>
    if c = '+' then
      match parseUnsigned rest with
      | some q => .num q
      | none => .nan
    else if c = '-' then
      match parseUnsigned rest with
      | some q => .num (-q)
      | none => .nan
    else
      match parseUnsigned (c :: rest) with
      | some q => .num q
      | none => .nan

/-- ECMAScript ToNumber (`Number(x)`) on the values `add` can receive. -/
def toNumber : JSValue → JSNum
  | .vnum n => n
  | .vstr s => strToNumber s
  | .vbool b => .num (if b then 1 else 0)
  | .vnull => .num 0
  | .vundefined => .nan

/-! ### Part 2 functions (lines 17-50) -/

/-- `add(a, b)` (lines 17-20): `return Number(a) + Number(b)`. Pure. -/
def add (a b : JSValue) : JSNum :=
  jsAdd (toNumber a) (toNumber b)

/-- `greet(name = 'guest')` (lines 26-29). Pure. -/
def greet (name : String) : String :=
  "hi " ++ name

/-- `incrementLocal()` (lines 36-40): a fresh local `count = 0`, then
`count += 1`, return `count`. Takes and returns the program state to show
it leaves it untouched. -/
def incrementLocal (st : State) : State × Int :=
  let count : Int := 0
  let count := count + 1
  (st, count)

/-- `incrementGlobal()` (lines 47-50): `globalCounter += 1; return
globalCounter`. -/
def incrementGlobal (st : State) : State × Int :=
  let c := st.globalCounter + 1
  ({ st with globalCounter := c }, c)

/-! ### Part 3 DOM helpers (lines 60-107) -/

/-- `toggleClass(selector, className)` (lines 60-65): resolve the element,
`false` if absent; otherwise toggle the class and return the resulting
membership. -/
def toggleClass (st : State) (selector className : String) : State × Bool :=
  match querySelector st.dom selector with
  | none => (st, false)
  | some el =>
    let el2 := { el with classes := classListToggle el.classes className }
    ({ st with dom := domSet st.dom selector el2 },
      classListContains el2.classes className)

/-- The default duration of `animateOnce` (line 75). -/
def animateOnceDefaultDuration : Nat := 700

/-- `animateOnce(selector, animationClass, duration = 700)` (lines 75-87):
resolve the element, `null` if absent; otherwise remove the class, read
`offsetWidth` to force a reflow, add the class, and schedule its removal
after `duration` ms; return the timeout id. -/
def animateOnce (st : State) (selector animationClass : String)
    (duration : Nat) : State × Option Nat :=
  match querySelector st.dom selector with
  | none => (st, none)
  | some el =>
    let el1 := { el with classes := classListRemove el.classes animationClass }
    let _reflow := el1.offsetWidth
    let el2 := { el1 with classes := classListAdd el1.classes animationClass }
    let id := st.nextTimerId
    ({ st with
        dom := domSet st.dom selector el2,
        timers := st.timers ++ [⟨id, selector, animationClass, duration⟩],
        nextTimerId := id + 1 },
      some id)

/-- `openModal(modalSelector)` (lines 94-100): resolve, `false` if absent;
otherwise add the `open` class, set `aria-hidden="false"`, return `true`. -/
def openModal (st : State) (modalSelector : String) : State × Bool :=
  match querySelector st.dom modalSelector with
  | none => (st, false)
  | some modal =>
    let m1 := { modal with classes := classListAdd modal.classes "open" }
    let m2 := setAttribute m1 "aria-hidden" "false"
    ({ st with dom := domSet st.dom modalSelector m2 }, true)

/-- `closeModal(modalSelector)` (lines 101-107): resolve, `false` if
absent; otherwise remove the `open` class, set `aria-hidden="true"`,
return `true`. -/
def closeModal (st : State) (modalSelector : String) : State × Bool :=
  match querySelector st.dom modalSelector with
  | none => (st, false)
  | some modal =>
    let m1 := { modal with classes := classListRemove modal.classes "open" }
    let m2 := setAttribute m1 "aria-hidden" "true"
    ({ st with dom := domSet st.dom modalSelector m2 }, true)

/-! ### Timer mechanics (`setTimeout` / `clearTimeout` / expiry) -/

def findTimer : List Timer → Nat → Option Timer
  | [], _ => none
  | t :: rest, i => if t.id = i then some t else findTimer rest i

def removeTimer : List Timer → Nat → List Timer
  | [], _ => []
  | t :: rest, i =>
    if t.id = i then removeTimer rest i else t :: removeTimer rest i

/-- A pending timeout expires: if still pending, drop it from the queue and
run its callback, `el.classList.remove(animationClass)` (lines 83-85). -/
def fireTimer (st : State) (i : Nat) : State :=
  match findTimer st.timers i with
  | none => st
  | some t =>
    let st1 := { st with timers := removeTimer st.timers i }
    match querySelector st1.dom t.targetSel with
    | none => st1
    | some el =>
      { st1 with
          dom := domSet st1.dom t.targetSel
            { el with classes := classListRemove el.classes t.className } }

/-- `clearTimeout(id)`: cancel a pending timeout. -/
def clearTimer (st : State) (i : Nat) : State :=
  { st with timers := removeTimer st.timers i }

/-! ### Wiring installed on DOMContentLoaded (lines 110-201)

Each listener body becomes a state transformer. `textContent`
assignments go through `setTextContent`; element keys use the `"#id"`
selector form (`getElementById x` = `querySelector "#x"`). -/

/-- Assign `el.textContent` for the element a selector resolves to. -/
def setTextContent (st : State) (sel s : String) : State :=
  match querySelector st.dom sel with
  | none => st
  | some el => { st with dom := domSet st.dom sel { el with textContent := s } }

/-- Render a `JSNum` the way string interpolation does. -/
def jsNumToString : JSNum → String
  | .nan => "NaN"
  | .num q => toString q

/-- `addBtn` click (lines 117-121): compute `add` on the two input values
and write the result into `#sumResult`. -/
def clickAddBtn (st : State) (a b : JSValue) : State :=
  let result := add a b
  setTextContent st "#sumResult" ("result: " ++ jsNumToString result)

/-- `incLocal` click (lines 129-133): call `incrementLocal`, display the
returned value in `#localOut`. -/
def clickIncLocalBtn (st : State) : State :=
  let p := incrementLocal st
  setTextContent p.1 "#localOut" ("returned local value: " ++ toString p.2)

/-- `incGlobal` click (lines 135-138): call `incrementGlobal`, display the
returned value in `#globalOut`. -/
def clickIncGlobalBtn (st : State) : State :=
  let p := incrementGlobal st
  setTextContent p.1 "#globalOut" ("globalCounter is now: " ++ toString p.2)

/-- `animateBoxBtn` click, and clicking the box itself (lines 142-149). -/
def clickAnimateBox (st : State) : State :=
  (animateOnce st "#animBox" "anim-pop" 700).1

/-- `flipBtn` click, and tapping the card (lines 155-165): toggle
`flipped` on `#flipCard` and mirror the returned boolean into
`aria-pressed`. -/
def clickFlip (st : State) : State :=
  let p := toggleClass st "#flipCard" "flipped"
  match querySelector p.1.dom "#flipCard" with
  | none => p.1
  | some card =>
    { p.1 with
        dom := domSet p.1.dom "#flipCard"
          (setAttribute card "aria-pressed" (toString p.2)) }

/-- `startSpin` click (lines 172-175). -/
def clickStartSpin (st : State) : State :=
  match querySelector st.dom "#spinner" with
  | none => st
  | some spinner =>
    let s1 := { spinner with classes := classListAdd spinner.classes "spinning" }
    { st with dom := domSet st.dom "#spinner" (setAttribute s1 "aria-hidden" "false") }

/-- `stopSpin` click (lines 176-179). -/
def clickStopSpin (st : State) : State :=
  match querySelector st.dom "#spinner" with
  | none => st
  | some spinner =>
    let s1 := { spinner with classes := classListRemove spinner.classes "spinning" }
    { st with dom := domSet st.dom "#spinner" (setAttribute s1 "aria-hidden" "true") }

/-- `openModalBtn` click (lines 185-187). -/
def clickOpenModalBtn (st : State) : State :=
  (openModal st "#demoModal").1

/-- `closeModalBtn` click (lines 188-190). -/
def clickCloseModalBtn (st : State) : State :=
  (closeModal st "#demoModal").1

/-- Click inside the modal container (lines 193-195): close only when the
event target is the container itself. -/
def clickModalBackdrop (st : State) (targetIsModal : Bool) : State :=
  if targetIsModal then (closeModal st "#demoModal").1 else st

/-- Global `keydown` listener (lines 198-200): Escape closes the modal. -/
def keydownHandler (st : State) (key : String) : State :=
  if key = "Escape" then (closeModal st "#demoModal").1 else st

/-! ### The program's operations as one step relation -/

/-- Every operation of the program: direct helper calls and every wired
event handler, plus timer expiry and cancellation. -/
inductive Op where
  | callAdd (a b : JSValue)
  | callGreet (name : String)
  | callIncrementLocal
  | callIncrementGlobal
  | callToggleClass (sel c : String)
  | callAnimateOnce (sel c : String) (dur : Nat)
  | callOpenModal (sel : String)
  | callCloseModal (sel : String)
  | addBtn (a b : JSValue)
  | incLocalBtn
  | incGlobalBtn
  | animateBoxClick
  | flipClick
  | startSpinClick
  | stopSpinClick
  | openModalClick
  | closeModalClick
  | modalBackdropClick (targetIsModal : Bool)
  | keydown (key : String)
  | timerExpires (i : Nat)
  | cancelTimer (i : Nat)
deriving DecidableEq

/-- Execute one operation. Pure functions (`add`, `greet`,
`incrementLocal`) leave the state as they found it. -/
def step (st : State) : Op → State
  | .callAdd _ _ => st
  | .callGreet _ => st
  | .callIncrementLocal => (incrementLocal st).1
  | .callIncrementGlobal => (incrementGlobal st).1
  | .callToggleClass sel c => (toggleClass st sel c).1
  | .callAnimateOnce sel c dur => (animateOnce st sel c dur).1
  | .callOpenModal sel => (openModal st sel).1
  | .callCloseModal sel => (closeModal st sel).1
  | .addBtn a b => clickAddBtn st a b
  | .incLocalBtn => clickIncLocalBtn st
  | .incGlobalBtn => clickIncGlobalBtn st
  | .animateBoxClick => clickAnimateBox st
  | .flipClick => clickFlip st
  | .startSpinClick => clickStartSpin st
  | .stopSpinClick => clickStopSpin st
  | .openModalClick => clickOpenModalBtn st
  | .closeModalClick => clickCloseModalBtn st
  | .modalBackdropClick b => clickModalBackdrop st b
  | .keydown k => keydownHandler st k
  | .timerExpires i => fireTimer st i
  | .cancelTimer i => clearTimer st i

/-- Execute a sequence of operations. -/
def run (st : State) (ops : List Op) : State :=
  ops.foldl step st

/-- Does an operation invoke `incrementGlobal`? Only the direct call and
the `incGlobal` button handler do. -/
def invokesIncrementGlobal : Op → Prop
  | .callIncrementGlobal => True
  | .incGlobalBtn => True
  | _ => False

instance : DecidablePred invokesIncrementGlobal := by
  intro op
  cases op <;> simp [invokesIncrementGlobal] <;> infer_instance

/-! ### Observables -/

/-- Class membership as observed through a selector (`false` when the
selector resolves to nothing). -/
def classAt (st : State) (sel c : String) : Bool :=
  match querySelector st.dom sel with
  | none => false
  | some el => classListContains el.classes c

/-- Attribute value as observed through a selector. -/
def attrAt (st : State) (sel n : String) : Option String :=
  match querySelector st.dom sel with
  | none => none
  | some el => getAttr el.attrs n

/-- Text content as observed through a selector. -/
def textAt (st : State) (sel : String) : Option String :=
  (querySelector st.dom sel).map Elem.textContent

/-! ### Lemmas about the classList primitives -/

theorem classListContains_append (as bs : List String) (c : String) :
    classListContains (as ++ bs) c
      = (classListContains as c || classListContains bs c) := by
  induction as with
  | nil => simp [classListContains]
  | cons x rest ih =>
    by_cases h : x = c <;> simp [classListContains, h, ih]

theorem classListContains_add_self (cs : List String) (c : String) :
    classListContains (classListAdd cs c) c = true := by
  unfold classListAdd
  by_cases h : classListContains cs c = true
  · simp [h]
  · simp only [Bool.not_eq_true] at h
    simp [h, classListContains_append, classListContains]

theorem classListContains_remove_self (cs : List String) (c : String) :
    classListContains (classListRemove cs c) c = false := by
  induction cs with
  | nil => simp [classListRemove, classListContains]
  | cons x rest ih =>
    by_cases h : x = c <;> simp [classListRemove, classListContains, h, ih]

theorem classListContains_remove_other (cs : List String) (c x : String)
    (h : x ≠ c) :
    classListContains (classListRemove cs c) x = classListContains cs x := by
  induction cs with
  | nil => simp [classListRemove]
  | cons y rest ih =>
    by_cases hy : y = c
    · subst hy
      simp [classListRemove, classListContains, (Ne.symm h), ih]
    · simp [classListRemove, classListContains, hy, ih]

theorem classListContains_add_other (cs : List String) (c x : String)
    (h : x ≠ c) :
    classListContains (classListAdd cs c) x = classListContains cs x := by
  unfold classListAdd
  by_cases hc : classListContains cs c = true
  · simp [hc]
  · simp only [Bool.not_eq_true] at hc
    simp [hc, classListContains_append, classListContains, h, Ne.symm h]

theorem classListRemove_of_not_contains (cs : List String) (c : String)
    (h : classListContains cs c = false) : classListRemove cs c = cs := by
  induction cs with
  | nil => simp [classListRemove]
  | cons x rest ih =>
    by_cases hx : x = c
    · simp [classListContains, hx] at h
    · simp [classListContains, hx] at h
      simp [classListRemove, hx, ih h]

theorem classListAdd_of_contains (cs : List String) (c : String)
    (h : classListContains cs c = true) : classListAdd cs c = cs := by
  simp [classListAdd, h]

theorem classListAdd_idem (cs : List String) (c : String) :
    classListAdd (classListAdd cs c) c = classListAdd cs c :=
  classListAdd_of_contains _ _ (classListContains_add_self cs c)

theorem classListRemove_idem (cs : List String) (c : String) :
    classListRemove (classListRemove cs c) c = classListRemove cs c :=
  classListRemove_of_not_contains _ _ (classListContains_remove_self cs c)

theorem classListContains_toggle_self (cs : List String) (c : String) :
    classListContains (classListToggle cs c) c = !classListContains cs c := by
  unfold classListToggle
  by_cases h : classListContains cs c = true
  · simp [h, classListContains_remove_self]
  · simp only [Bool.not_eq_true] at h
    simp [h, classListContains_add_self]

theorem classListContains_toggle_other (cs : List String) (c x : String)
    (h : x ≠ c) :
    classListContains (classListToggle cs c) x = classListContains cs x := by
  unfold classListToggle
  by_cases hc : classListContains cs c = true
  · simp [hc, classListContains_remove_other cs c x h]
  · simp only [Bool.not_eq_true] at hc
    simp [hc, classListContains_add_other cs c x h]

theorem classListContains_toggle_toggle (cs : List String) (c x : String) :
    classListContains (classListToggle (classListToggle cs c) c) x
      = classListContains cs x := by
  by_cases hx : x = c
  · subst hx
    simp [classListContains_toggle_self]
  · rw [classListContains_toggle_other _ c x hx,
      classListContains_toggle_other _ c x hx]

/-! ### Lemmas about attributes -/

theorem getAttr_attrSet_self (l : List (String × String)) (n v : String) :
    getAttr (attrSet l n v) n = some v := by
  induction l with
  | nil => simp [attrSet, getAttr]
  | cons p rest ih =>
    by_cases h : p.1 = n
    · simp [attrSet, getAttr, h]
    · simp [attrSet, getAttr, h, ih]

theorem getAttr_attrSet_other (l : List (String × String)) (n v m : String)
    (h : m ≠ n) : getAttr (attrSet l n v) m = getAttr l m := by
  induction l with
  | nil => simp [attrSet, getAttr, Ne.symm h]
  | cons p rest ih =>
    by_cases hp : p.1 = n
    · simp [attrSet, getAttr, hp, Ne.symm h]
    · simp [attrSet, getAttr, hp, ih]

theorem attrSet_attrSet_self (l : List (String × String)) (n v : String) :
    attrSet (attrSet l n v) n v = attrSet l n v := by
  induction l with
  | nil => simp [attrSet]
  | cons p rest ih =>
    by_cases h : p.1 = n
    · simp [attrSet, h]
    · simp [attrSet, h, ih]

/-! ### Lemmas about document updates -/

theorem querySelector_domSet_self (d : Dom) (sel : String) (e : Elem) :
    querySelector (domSet d sel e) sel = some e := by
  simp [querySelector, domSet]

theorem querySelector_domSet_other (d : Dom) (sel s : String) (e : Elem)
    (h : s ≠ sel) : querySelector (domSet d sel e) s = d s := by
  simp [querySelector, domSet, h]

theorem domSet_domSet_self (d : Dom) (sel : String) (e1 e2 : Elem) :
    domSet (domSet d sel e1) sel e2 = domSet d sel e2 := by
  funext s
  by_cases h : s = sel <;> simp [domSet, h]

/-! ### Lemmas about timers -/

theorem findTimer_append_last (ts : List Timer) (t : Timer)
    (h : findTimer ts t.id = none) : findTimer (ts ++ [t]) t.id = some t := by
  induction ts with
  | nil => simp [findTimer]
  | cons u rest ih =>
    by_cases hu : u.id = t.id
    · simp [findTimer, hu] at h
    · simp [findTimer, hu] at h ⊢
      exact ih h

theorem removeTimer_of_not_found (ts : List Timer) (i : Nat)
    (h : findTimer ts i = none) : removeTimer ts i = ts := by
  induction ts with
  | nil => simp [removeTimer]
  | cons u rest ih =>
    by_cases hu : u.id = i
    · simp [findTimer, hu] at h
    · simp [findTimer, hu] at h
      simp [removeTimer, hu, ih h]

theorem removeTimer_append_last_self (ts : List Timer) (t : Timer)
    (h : findTimer ts t.id = none) :
    removeTimer (ts ++ [t]) t.id = ts := by
  induction ts with
  | nil => simp [removeTimer]
  | cons u rest ih =>
    by_cases hu : u.id = t.id
    · simp [findTimer, hu] at h
    · simp [findTimer, hu] at h
      simp [removeTimer, hu, ih h]

/-! ### Unfolding lemmas for the helpers on a found element -/

theorem toggleClass_found (st : State) (sel c : String) (el : Elem)
    (h : querySelector st.dom sel = some el) :
    toggleClass st sel c =
      ({ st with
          dom := domSet st.dom sel { el with classes := classListToggle el.classes c } },
        classListContains (classListToggle el.classes c) c) := by
  simp [toggleClass, h]

theorem openModal_found (st : State) (sel : String) (el : Elem)
    (h : querySelector st.dom sel = some el) :
    openModal st sel =
      ({ st with
          dom := domSet st.dom sel
                   { el with classes := classListAdd el.classes "open",
                             attrs := attrSet el.attrs "aria-hidden" "false" } },
        true) := by
  simp [openModal, setAttribute, h]

theorem closeModal_found (st : State) (sel : String) (el : Elem)
    (h : querySelector st.dom sel = some el) :
    closeModal st sel =
      ({ st with
          dom := domSet st.dom sel
                   { el with classes := classListRemove el.classes "open",
                             attrs := attrSet el.attrs "aria-hidden" "true" } },
        true) := by
  simp [closeModal, setAttribute, h]

theorem animateOnce_found (st : State) (sel c : String) (dur : Nat)
    (el : Elem) (h : querySelector st.dom sel = some el) :
    animateOnce st sel c dur =
      ({ st with
          dom := domSet st.dom sel
                   { el with classes := classListAdd (classListRemove el.classes c) c },
          timers := st.timers ++ [⟨st.nextTimerId, sel, c, dur⟩],
          nextTimerId := st.nextTimerId + 1 },
        some st.nextTimerId) := by
  simp [animateOnce, h]

/-! ### The global counter through each operation -/

theorem setTextContent_globalCounter (st : State) (sel s : String) :
    (setTextContent st sel s).globalCounter = st.globalCounter := by
  unfold setTextContent
  split <;> rfl

theorem toggleClass_globalCounter (st : State) (sel c : String) :
    (toggleClass st sel c).1.globalCounter = st.globalCounter := by
  unfold toggleClass
  split <;> rfl

theorem animateOnce_globalCounter (st : State) (sel c : String) (dur : Nat) :
    (animateOnce st sel c dur).1.globalCounter = st.globalCounter := by
  unfold animateOnce
  split <;> rfl

theorem openModal_globalCounter (st : State) (sel : String) :
    (openModal st sel).1.globalCounter = st.globalCounter := by
  unfold openModal
  split <;> rfl

theorem closeModal_globalCounter (st : State) (sel : String) :
    (closeModal st sel).1.globalCounter = st.globalCounter := by
  unfold closeModal
  split <;> rfl

theorem fireTimer_globalCounter (st : State) (i : Nat) :
    (fireTimer st i).globalCounter = st.globalCounter := by
  unfold fireTimer
  cases h : findTimer st.timers i
  · rfl
  · dsimp only
    split <;> rfl

theorem clickFlip_globalCounter (st : State) :
    (clickFlip st).globalCounter = st.globalCounter := by
  unfold clickFlip
  dsimp only
  cases h : querySelector (toggleClass st "#flipCard" "flipped").1.dom "#flipCard" <;>
    simp [h, toggleClass_globalCounter]

theorem step_globalCounter (st : State) (op : Op) :
    ¬ invokesIncrementGlobal op →
    (step st op).globalCounter = st.globalCounter := by
  intro hop
  cases op <;>
    simp_all [step, invokesIncrementGlobal, incrementLocal,
      toggleClass_globalCounter, animateOnce_globalCounter,
      openModal_globalCounter, closeModal_globalCounter,
      fireTimer_globalCounter, clickFlip_globalCounter,
      clickAddBtn, clickIncLocalBtn, clickAnimateBox,
      clickOpenModalBtn,
      clickCloseModalBtn, clickModalBackdrop, keydownHandler,
      clearTimer, setTextContent_globalCounter]
  case startSpinClick =>
    unfold clickStartSpin
    split <;> rfl
  case stopSpinClick =>
    unfold clickStopSpin
    split <;> rfl
  case modalBackdropClick b =>
    cases b <;> simp [clickModalBackdrop, closeModal_globalCounter]
  case keydown k =>
    by_cases hk : k = "Escape" <;>
      simp [keydownHandler, hk, closeModal_globalCounter]

theorem step_globalCounter_le (st : State) (op : Op) :
    st.globalCounter ≤ (step st op).globalCounter := by
  by_cases h : invokesIncrementGlobal op
  · cases op <;> simp [invokesIncrementGlobal] at h <;>
      simp [step, clickIncGlobalBtn, incrementGlobal,
        setTextContent_globalCounter]
  · rw [step_globalCounter st op h]

theorem run_globalCounter_le (st : State) (ops : List Op) :
    st.globalCounter ≤ (run st ops).globalCounter := by
  induction ops generalizing st with
  | nil => exact le_refl _
  | cons op rest ih =>
    calc st.globalCounter ≤ (step st op).globalCounter :=
          step_globalCounter_le st op
      _ ≤ (run (step st op) rest).globalCounter := ih (step st op)

/-! ### Concrete pages, for witnesses and counterexamples -/

/-- A document with no elements at all. -/
def emptyDom : Dom := fun _ => none

def emptyState : State := initState emptyDom

/-- The demo modal as the page ships it: closed, `aria-hidden="true"`. -/
def modalElem : Elem :=
  { classes := [], attrs := [("aria-hidden", "true")], textContent := "", offsetWidth := 10 }

def flipCardElem : Elem :=
  { classes := [], attrs := [], textContent := "", offsetWidth := 5 }

def animBoxElem : Elem :=
  { classes := [], attrs := [], textContent := "", offsetWidth := 7 }

def outElem : Elem :=
  { classes := [], attrs := [], textContent := "", offsetWidth := 3 }

/-- A concrete document holding the page's principal elements. -/
def pageDom : Dom := fun s =>
  if s = "#demoModal" then some modalElem
  else if s = "#flipCard" then some flipCardElem
  else if s = "#animBox" then some animBoxElem
  else if s = "#globalOut" then some outElem
  else if s = "#localOut" then some outElem
  else none

def pageState : State := initState pageDom

/-- A page whose card already carries the `flipped` class. -/
def flippedCardState : State :=
  initState (fun s =>
    if s = "#flipCard" then
      some { classes := ["flipped"], attrs := [], textContent := "", offsetWidth := 5 }
    else none)

/-- The page right after `openModal('#demoModal')` succeeded. -/
def openedModalState : State := (openModal pageState "#demoModal").1

/-! ### Claim theorems -/

/-- C1, counterexample to the claim as stated: on a card that already
carries the `flipped` class, the FIRST `toggleClass` call returns `false`
(it removes the class), not `true`. -/
theorem toggleClass_twice_counterexample :
    (toggleClass flippedCardState "#flipCard" "flipped").2 = false := by
  decide

/-- C1 (amended): when the element is found and does NOT already have the
class, `toggleClass` twice with the same selector and class returns `true`
then `false`; in every found case the double toggle restores class
membership everywhere on the page; on a selector resolving to no element
both calls return `false` and leave the state untouched. -/
theorem toggleClass_twice_spec (st : State) (sel c : String) :
    (∀ el, querySelector st.dom sel = some el →
      (classListContains el.classes c = false →
        (toggleClass st sel c).2 = true ∧
        (toggleClass (toggleClass st sel c).1 sel c).2 = false) ∧
      (∀ s x, classAt (toggleClass (toggleClass st sel c).1 sel c).1 s x
          = classAt st s x)) ∧
    (querySelector st.dom sel = none →
      toggleClass st sel c = (st, false) ∧
      toggleClass (toggleClass st sel c).1 sel c = (st, false)) := by
  constructor
  · intro el hel
    have h1 := toggleClass_found st sel c el hel
    have hq1 : querySelector (toggleClass st sel c).1.dom sel
        = some { el with classes := classListToggle el.classes c } := by
      rw [h1]
      exact querySelector_domSet_self _ _ _
    have h2 := toggleClass_found (toggleClass st sel c).1 sel c _ hq1
    constructor
    · intro habs
      constructor
      · rw [h1]
        simp [classListContains_toggle_self, habs]
      · rw [h2]
        simp [classListContains_toggle_self, habs]
    · intro s x
      by_cases hs : s = sel
      · subst hs
        rw [classAt, h2]
        simp only [h1]
        rw [classAt, hel]
        simp [querySelector_domSet_self, domSet_domSet_self,
          classListContains_toggle_toggle]
      · rw [classAt, h2]
        simp only [h1]
        rw [classAt]
        simp [querySelector, querySelector_domSet_other _ _ _ _ hs, domSet, hs]
  · intro h
    have h1 : toggleClass st sel c = (st, false) := by
      simp [toggleClass, h]
    refine ⟨h1, ?_⟩
    rw [h1]
    exact h1

/-- C1 witness for the amended theorem: on the shipped page the card has
no `flipped` class, so the two calls return `true` then `false`. -/
theorem toggleClass_twice_spec_witness :
    (toggleClass pageState "#flipCard" "flipped").2 = true ∧
    (toggleClass (toggleClass pageState "#flipCard" "flipped").1
        "#flipCard" "flipped").2 = false :=
  ((toggleClass_twice_spec pageState "#flipCard" "flipped").1
    flipCardElem (by decide)).1 (by decide)

/-- C2: on a found modal whose `aria-hidden` is `"true"`, `openModal` then
`closeModal` restores `aria-hidden` to its pre-open value `"true"`. -/
theorem openModal_closeModal_roundtrip (st : State) (sel : String)
    (el : Elem) (hel : querySelector st.dom sel = some el)
    (hpre : attrAt st sel "aria-hidden" = some "true") :
    attrAt (closeModal (openModal st sel).1 sel).1 sel "aria-hidden"
        = attrAt st sel "aria-hidden" ∧
    attrAt (closeModal (openModal st sel).1 sel).1 sel "aria-hidden"
        = some "true" := by
  have h1 := openModal_found st sel el hel
  have hq1 : querySelector (openModal st sel).1.dom sel
      = some { el with classes := classListAdd el.classes "open",
                       attrs := attrSet el.attrs "aria-hidden" "false" } := by
    rw [h1]
    exact querySelector_domSet_self _ _ _
  have h2 := closeModal_found (openModal st sel).1 sel _ hq1
  have hfinal : attrAt (closeModal (openModal st sel).1 sel).1 sel
      "aria-hidden" = some "true" := by
    rw [attrAt, h2]
    simp [querySelector_domSet_self, getAttr_attrSet_self]
  exact ⟨hfinal.trans hpre.symm, hfinal⟩

/-- C2 witness: the concrete page's modal starts with
`aria-hidden="true"` and open/close restores exactly that. -/
theorem openModal_closeModal_roundtrip_witness :
    attrAt (closeModal (openModal pageState "#demoModal").1 "#demoModal").1
        "#demoModal" "aria-hidden" = attrAt pageState "#demoModal" "aria-hidden" ∧
    attrAt (closeModal (openModal pageState "#demoModal").1 "#demoModal").1
        "#demoModal" "aria-hidden" = some "true" :=
  openModal_closeModal_roundtrip pageState "#demoModal" modalElem
    (by decide) (by decide)

/-- C9: dispatching a keydown with key `"Escape"` while the modal element
exists and is open (`aria-hidden="false"`) leaves the modal with
`aria-hidden="true"`. The handler takes no focus information at all, so
the result is focus-independent. -/
theorem escape_closes_modal (st : State) (el : Elem)
    (hel : querySelector st.dom "#demoModal" = some el)
    (_hopen : attrAt st "#demoModal" "aria-hidden" = some "false") :
    attrAt (keydownHandler st "Escape") "#demoModal" "aria-hidden"
        = some "true" := by
  have hkey : keydownHandler st "Escape" = (closeModal st "#demoModal").1 := by
    simp [keydownHandler]
  rw [hkey, closeModal_found st _ el hel]
  rw [attrAt]
  simp [querySelector_domSet_self, getAttr_attrSet_self]

/-- C9 witness: Escape pressed on the concretely opened page closes the
modal. -/
theorem escape_closes_modal_witness :
    attrAt (keydownHandler openedModalState "Escape") "#demoModal"
        "aria-hidden" = some "true" :=
  escape_closes_modal openedModalState
    ⟨["open"], [("aria-hidden", "false")], "", 10⟩ (by decide) (by decide)

/-- C10: on a found element, `openModal` and `closeModal` each return
`true` unconditionally, applying either twice equals applying it once,
and `closeModal` on any state (open or already closed) sets
`aria-hidden` to `"true"`. -/
theorem modal_open_close_idempotent (st : State) (sel : String) (el : Elem)
    (hel : querySelector st.dom sel = some el) :
    (openModal st sel).2 = true ∧
    (closeModal st sel).2 = true ∧
    openModal (openModal st sel).1 sel = ((openModal st sel).1, true) ∧
    closeModal (closeModal st sel).1 sel = ((closeModal st sel).1, true) ∧
    attrAt (closeModal st sel).1 sel "aria-hidden" = some "true" := by
  refine ⟨?_, ?_, ?_, ?_, ?_⟩
  · rw [openModal_found st sel el hel]
  · rw [closeModal_found st sel el hel]
  · have h1 := openModal_found st sel el hel
    have hq1 : querySelector (openModal st sel).1.dom sel
        = some { el with classes := classListAdd el.classes "open",
                         attrs := attrSet el.attrs "aria-hidden" "false" } := by
      rw [h1]
      exact querySelector_domSet_self _ _ _
    have h2 := openModal_found (openModal st sel).1 sel _ hq1
    rw [h2]
    simp only [h1]
    simp [classListAdd_idem, attrSet_attrSet_self, domSet_domSet_self]
  · have h1 := closeModal_found st sel el hel
    have hq1 : querySelector (closeModal st sel).1.dom sel
        = some { el with classes := classListRemove el.classes "open",
                         attrs := attrSet el.attrs "aria-hidden" "true" } := by
      rw [h1]
      exact querySelector_domSet_self _ _ _
    have h2 := closeModal_found (closeModal st sel).1 sel _ hq1
    rw [h2]
    simp only [h1]
    simp [classListRemove_idem, attrSet_attrSet_self, domSet_domSet_self]
  · rw [closeModal_found st sel el hel]
    rw [attrAt]
    simp [querySelector_domSet_self, getAttr_attrSet_self]

/-- C10 witness: closing the (already closed) shipped modal twice equals
closing it once. -/
theorem modal_open_close_idempotent_witness :
    closeModal (closeModal pageState "#demoModal").1 "#demoModal"
      = ((closeModal pageState "#demoModal").1, true) :=
  (modal_open_close_idempotent pageState "#demoModal" modalElem
    (by decide)).2.2.2.1

/-- C6: each DOM-effect helper, given a selector resolving to no element,
returns its sentinel (`false` for toggleClass/openModal/closeModal,
`null` for animateOnce) and returns the state exactly as it was; being
total Lean functions, none can raise. -/
theorem missing_element_sentinels (st : State) (sel c : String) (dur : Nat)
    (h : querySelector st.dom sel = none) :
    toggleClass st sel c = (st, false) ∧
    animateOnce st sel c dur = (st, none) ∧
    openModal st sel = (st, false) ∧
    closeModal st sel = (st, false) := by
  refine ⟨?_, ?_, ?_, ?_⟩ <;>
    simp [toggleClass, animateOnce, openModal, closeModal, h]

/-- C6 witness: on the empty page every helper fails gently. -/
theorem missing_element_sentinels_witness :
    toggleClass emptyState "#nope" "x" = (emptyState, false) ∧
    animateOnce emptyState "#nope" "x" 700 = (emptyState, none) ∧
    openModal emptyState "#nope" = (emptyState, false) ∧
    closeModal emptyState "#nope" = (emptyState, false) :=
  missing_element_sentinels emptyState "#nope" "x" 700 rfl

/-! ### Iterated incrementGlobal, for C3 -/

/-- Call `incrementGlobal()` `n` times in sequence, collecting the
returned values in call order. -/
def incrementGlobalN : State → Nat → State × List Int
  | st, 0 => (st, [])
  | st, n + 1 =>
    let p := incrementGlobal st
    let q := incrementGlobalN p.1 n
    (q.1, p.2 :: q.2)

theorem incrementGlobalN_general (n : Nat) (st : State) :
    (incrementGlobalN st n).2
        = (List.range n).map (fun (i : Nat) => st.globalCounter + (i : Int) + 1) ∧
    (incrementGlobalN st n).1.globalCounter = st.globalCounter + n := by
  induction n generalizing st with
  | zero => simp [incrementGlobalN]
  | succ n ih =>
    obtain ⟨ih1, ih2⟩ := ih { st with globalCounter := st.globalCounter + 1 }
    constructor
    · simp only [incrementGlobalN, incrementGlobal]
      rw [ih1, List.range_succ_eq_map, List.map_cons, List.map_map]
      congr 1
      · simp
      · apply List.map_congr_left
        intro i _
        simp only [Function.comp]
        push_cast
        ring
    · simp only [incrementGlobalN, incrementGlobal]
      rw [ih2]
      push_cast
      ring

/-- C3: starting from a state whose global counter is 0, calling
`incrementGlobal` N times returns the list `[1, 2, ..., N]` in order, and
afterwards the counter equals N. -/
theorem incrementGlobal_sequence (st : State) (h0 : st.globalCounter = 0)
    (n : Nat) :
    (incrementGlobalN st n).2 = (List.range n).map (fun (i : Nat) => (i : Int) + 1) ∧
    (incrementGlobalN st n).1.globalCounter = n := by
  obtain ⟨h1, h2⟩ := incrementGlobalN_general n st
  rw [h0] at h1 h2
  constructor
  · rw [h1]
    simp
  · rw [h2]
    simp

/-- C3 witness: three calls on the freshly initialized page return
`[1, 2, 3]` and leave the counter at 3. -/
theorem incrementGlobal_sequence_witness :
    (incrementGlobalN emptyState 3).2
        = (List.range 3).map (fun (i : Nat) => (i : Int) + 1) ∧
    (incrementGlobalN emptyState 3).1.globalCounter = 3 :=
  incrementGlobal_sequence emptyState rfl 3

/-- C4: the counter starts at 0 for every initial page; every single
operation of the program leaves it unchanged or increases it (so any
sequence of operations is monotonically non-decreasing), and every
operation that does not invoke `incrementGlobal` leaves it exactly
unchanged. -/
theorem globalCounter_invariant :
    (∀ d, (initState d).globalCounter = 0) ∧
    (∀ st op, st.globalCounter ≤ (step st op).globalCounter) ∧
    (∀ st op, ¬ invokesIncrementGlobal op →
      (step st op).globalCounter = st.globalCounter) ∧
    (∀ st ops, st.globalCounter ≤ (run st ops).globalCounter) :=
  ⟨fun _ => rfl, step_globalCounter_le, step_globalCounter,
    run_globalCounter_le⟩

/-- C4 witness: a concrete non-incrementing operation (a local-counter
click) leaves the concrete page's counter unchanged. -/
theorem globalCounter_invariant_witness :
    (step pageState Op.incLocalBtn).globalCounter = pageState.globalCounter :=
  globalCounter_invariant.2.2.1 pageState Op.incLocalBtn
    (by simp [invokesIncrementGlobal])

/-- C5: on a found element (with a fresh timer id pending nowhere),
`animateOnce` removes then re-adds the animation class (the reflow read
has no state effect), schedules removal after `duration` ms (default
700), and returns the timer handle; when that timer fires the class is
gone, while cancelling the handle first leaves the class in place. -/
theorem animateOnce_spec (st : State) (sel c : String) (dur : Nat)
    (el : Elem) (hel : querySelector st.dom sel = some el)
    (hfresh : findTimer st.timers st.nextTimerId = none) :
    animateOnceDefaultDuration = 700 ∧
    (animateOnce st sel c dur).2 = some st.nextTimerId ∧
    querySelector (animateOnce st sel c dur).1.dom sel
        = some { el with classes := classListAdd (classListRemove el.classes c) c } ∧
    (animateOnce st sel c dur).1.timers
        = st.timers ++ [⟨st.nextTimerId, sel, c, dur⟩] ∧
    classAt (fireTimer (animateOnce st sel c dur).1 st.nextTimerId) sel c
        = false ∧
    classAt (fireTimer (clearTimer (animateOnce st sel c dur).1
        st.nextTimerId) st.nextTimerId) sel c = true := by
  have h1 := animateOnce_found st sel c dur el hel
  have hfind : findTimer (st.timers ++ [⟨st.nextTimerId, sel, c, dur⟩])
      st.nextTimerId = some ⟨st.nextTimerId, sel, c, dur⟩ := by
    simpa using
      findTimer_append_last st.timers ⟨st.nextTimerId, sel, c, dur⟩ hfresh
  refine ⟨rfl, ?_, ?_, ?_, ?_, ?_⟩
  · rw [h1]
  · rw [h1]
    exact querySelector_domSet_self _ _ _
  · rw [h1]
  · rw [h1]
    simp only [fireTimer, hfind]
    rw [classAt]
    simp [querySelector_domSet_self, domSet_domSet_self,
      classListContains_remove_self]
  · rw [h1]
    have hclear : removeTimer (st.timers ++ [⟨st.nextTimerId, sel, c, dur⟩])
        st.nextTimerId = st.timers := by
      simpa using
        removeTimer_append_last_self st.timers ⟨st.nextTimerId, sel, c, dur⟩
          hfresh
    simp only [clearTimer, hclear, fireTimer, hfresh]
    rw [classAt]
    simp [querySelector_domSet_self, classListContains_add_self]

/-- C5 witness: animating the concrete page's box hands back timer 0,
whose expiry removes `anim-pop`. -/
theorem animateOnce_spec_witness :
    (animateOnce pageState "#animBox" "anim-pop" 700).2
        = some pageState.nextTimerId ∧
    classAt (fireTimer (animateOnce pageState "#animBox" "anim-pop" 700).1
        pageState.nextTimerId) "#animBox" "anim-pop" = false :=
  ⟨(animateOnce_spec pageState "#animBox" "anim-pop" 700 animBoxElem
      (by decide) rfl).2.1,
   (animateOnce_spec pageState "#animBox" "anim-pop" 700 animBoxElem
      (by decide) rfl).2.2.2.2.1⟩

/-- C7: `add` is exactly the numeric coercion of both arguments followed
by JS addition; whenever either coercion yields NaN the result is NaN;
and calling `add` is a pure operation that leaves the program state
untouched (and, being a total function, raises nothing). -/
theorem add_spec (a b : JSValue) :
    add a b = jsAdd (toNumber a) (toNumber b) ∧
    ((toNumber a = .nan ∨ toNumber b = .nan) → add a b = .nan) ∧
    (∀ st : State, step st (.callAdd a b) = st) := by
  refine ⟨rfl, ?_, fun _ => rfl⟩
  intro h
  show jsAdd (toNumber a) (toNumber b) = .nan
  rcases h with h | h
  · rw [h]
    cases toNumber b <;> rfl
  · rw [h]
    cases toNumber a <;> rfl

/-- C7 witness: a non-numeric string operand makes the sum NaN. -/
theorem add_spec_witness : add (.vstr "hello") (.vnum (.num 1)) = .nan :=
  (add_spec (.vstr "hello") (.vnum (.num 1))).2.1 (Or.inl (by decide))

/-! ### Helpers for C8 -/

theorem textAt_setTextContent_other (st : State) (sel s sel2 : String)
    (h : sel2 ≠ sel) : textAt (setTextContent st sel s) sel2 = textAt st sel2 := by
  unfold setTextContent
  cases hq : querySelector st.dom sel
  · rfl
  · simp [textAt, querySelector, domSet, h]

theorem clickIncLocalBtn_globalCounter (st : State) :
    (clickIncLocalBtn st).globalCounter = st.globalCounter := by
  simp [clickIncLocalBtn, incrementLocal, setTextContent_globalCounter]

theorem clickIncLocalBtn_textAt_globalOut (st : State) :
    textAt (clickIncLocalBtn st) "#globalOut" = textAt st "#globalOut" := by
  show textAt (setTextContent st "#localOut" _) "#globalOut" = _
  exact textAt_setTextContent_other st "#localOut" _ "#globalOut" (by decide)

/-- C8: `incrementLocal` returns `1` from every state whatsoever and
returns the state unchanged; and any number of local-increment button
clicks leaves both the global counter and the text displayed in
`#globalOut` exactly as they were. -/
theorem incrementLocal_spec :
    (∀ st, incrementLocal st = (st, 1)) ∧
    (∀ st n,
      (run st (List.replicate n Op.incLocalBtn)).globalCounter
          = st.globalCounter ∧
      textAt (run st (List.replicate n Op.incLocalBtn)) "#globalOut"
          = textAt st "#globalOut") := by
  refine ⟨fun _ => rfl, ?_⟩
  intro st n
  induction n generalizing st with
  | zero => exact ⟨rfl, rfl⟩
  | succ n ih =>
    have hstep : run st (List.replicate (n + 1) Op.incLocalBtn)
        = run (clickIncLocalBtn st) (List.replicate n Op.incLocalBtn) := by
      simp [run, List.replicate_succ, step]
    obtain ⟨ih1, ih2⟩ := ih (clickIncLocalBtn st)
    rw [hstep]
    exact ⟨ih1.trans (clickIncLocalBtn_globalCounter st),
      ih2.trans (clickIncLocalBtn_textAt_globalOut st)⟩

end ScriptJs
